import Mathlib

/-!
Shallow embedding of the `openweather` repository (request builders for the
OpenWeather weather / UV-index / air-pollution APIs) and proofs about it.

Sources embedded (authoritative files under `src/src/`):
  * `openweather-weather.js` : `TemperatureUnit`, `WeatherRequestType`,
    `BaseUrl`, `WeatherRequest` (constructor, accessors, `url`, `exec`),
    `defaultKey`, factories.
  * `openweather-uv.js` : `UVRequestType`, `BaseUrl`, `UVRequest`
    (constructor, accessors, `url`, `exec`), `defaultKey`, factories.
  * `openweather-air.js` (the `AirRequest` variant) : `AirRequestType`,
    `BaseUrl`, `AirRequest` (constructor, accessors, `url`, `exec`).
  * `openweather-base.js` : the `InvalidRequestType` error class
    (an ES2015 `class extends TypeError`).
  * `openweather.js` : the umbrella module and its export object.

Modelling conventions:
  * Request fields hold the serialized (string) form of the stored JS value;
    an unset field (JS `undefined`) is `none`.
  * JS truthiness on such a field: `undefined` is falsy and, among strings,
    only the empty string is falsy (`jsTruthy`); `a || b` is `jsOr`.
  * String interpolation / `URLSearchParams` coercion of `undefined`
    produces the text "undefined" (`serParam`).
  * Thrown JS errors are `JSError`; note that invoking an ES2015 class
    without `new` (as `openweather-uv.js` line 44 does with
    `InvalidRequestType`) raises a plain `TypeError` at the call itself,
    before any `throw` of an `InvalidRequestType` instance could happen.
  * `url()` results for the weather and UV families are structured as
    (host, path, query-pair list) in source order; the pairs are the
    decoded key/value pairs that `URLSearchParams` serializes into `href`
    (serialization percent-encodes values, parsing decodes them back).
  * Promise chains in `exec` are collapsed into a pure trace: the number of
    `got` calls issued, the settled state of the returned promise, and the
    list of (first-argument, second-argument) pairs the callback was
    invoked with.
-/

/-- Thrown JS error values, as far as this repository distinguishes them. -/
inductive JSError where
  | typeError (msg : String)
  | invalidRequestType (msg : String)
  | referenceError (ident : String)
  deriving DecidableEq, Repr

/-- JS truthiness of an optional string-valued field: `undefined` is falsy
and the only falsy string is the empty string. -/
def jsTruthy : Option String → Bool
  | none => false
  | some s => !(s == "")

/-- The JS expression `a || b` on optional string-valued fields. -/
def jsOr (a b : Option String) : Option String :=
  if jsTruthy a then a else b

/-- Coercion a JS value undergoes in template strings and in
`URLSearchParams.append`: `undefined` becomes the text "undefined". -/
def serParam : Option String → String
  | none => "undefined"
  | some s => s

/-- Hexadecimal digit character (uppercase), for percent-encoding. -/
def hexDigit (n : Nat) : Char :=
  if n < 10 then Char.ofNat (48 + n) else Char.ofNat (55 + n)

/-- Percent-encoding of a single byte, as `encodeURI` emits it. -/
def percentEncodeByte (b : Nat) : String :=
  "%" ++ (hexDigit (b / 16)).toString ++ (hexDigit (b % 16)).toString

/-- The UTF-8 bytes of a character, as natural numbers. -/
def utf8Bytes (c : Char) : List Nat :=
  let n := c.toNat
  if n < 128 then [n]
  else if n < 2048 then [192 + n / 64, 128 + n % 64]
  else if n < 65536 then [224 + n / 4096, 128 + (n / 64) % 64, 128 + n % 64]
  else [240 + n / 262144, 128 + (n / 4096) % 64, 128 + (n / 64) % 64, 128 + n % 64]

/-- Characters `encodeURI` leaves unescaped besides ASCII letters and
digits (the reserved and unreserved sets; the last entry is the single
quote character). -/
def encodeURIExtraKeep : List Char :=
  [';', ',', '/', '?', ':', '@', '&', '=', '+', '$', '-', '_', '.', '!',
   '~', '*', '(', ')', '#', Char.ofNat 39]

/-- The JS global `encodeURI`: percent-encodes the UTF-8 bytes of every
character outside the reserved/unreserved sets. -/
def encodeURI (s : String) : String :=
  String.join (s.data.map (fun c =>
    if c.isAlpha || c.isDigit || encodeURIExtraKeep.contains c then c.toString
    else String.join ((utf8Bytes c).map percentEncodeByte)))

/-- A generated URL for the weather and UV families, structured as host,
path and the ordered decoded query pairs appended by `url()`. -/
structure GenUrl where
  host : String
  path : String
  query : List (String × String)
  deriving DecidableEq, Repr

/-- Query pairs of an optional generated URL (empty when `url()` would have
thrown on a missing request type). -/
def urlQuery : Option GenUrl → List (String × String)
  | none => []
  | some u => u.query

/-- Host and path of an optional generated URL. -/
def urlHostPath : Option GenUrl → Option (String × String)
  | none => none
  | some u => some (u.host, u.path)

/-! ## `openweather-weather.js` -/

/-- The `TemperatureUnit` enum members of `openweather-weather.js`. -/
inductive TemperatureUnit where
  | METRIC
  | STANDARD
  | IMPERIAL
  deriving DecidableEq, Repr

/-- Total name table behind `TemperatureUnit.getName` for genuine members. -/
def TemperatureUnit.nameOf : TemperatureUnit → String
  | .METRIC => "metric"
  | .STANDARD => "standard"
  | .IMPERIAL => "imperial"

/-- `TemperatureUnit.getName` (lines 45-52): returns the name for a member
and throws `new InvalidRequestType('Unknown TemperatureUnit')` otherwise
(`none` stands for `null` or any non-member argument). -/
def TemperatureUnit.getName : Option TemperatureUnit → Except JSError String
  | some u => .ok u.nameOf
  | none => .error (.invalidRequestType "Unknown TemperatureUnit")

/-- The `WeatherRequestType` enum members of `openweather-weather.js`. -/
inductive WeatherRequestType where
  | CURRENT
  | FORECAST_5
  | FORECAST_16
  deriving DecidableEq, Repr

/-- `WeatherRequestType.getName` (lines 86-93): named members return their
string, the default branch throws `new InvalidRequestType(...)`. -/
def WeatherRequestType.getName : Option WeatherRequestType → Except JSError String
  | some .CURRENT => .ok "current"
  | some .FORECAST_5 => .ok "forecast5"
  | some .FORECAST_16 => .ok "forecast16"
  | none => .error (.invalidRequestType "Unknown WeatherRequestType")

/-- The weather `BaseUrl` table (lines 110-114) split as host and path of
`http://api.openweathermap.org/data/2.5/...`. -/
def weatherBaseUrl : WeatherRequestType → String × String
  | .CURRENT => ("api.openweathermap.org", "/data/2.5/weather")
  | .FORECAST_5 => ("api.openweathermap.org", "/data/2.5/forecast")
  | .FORECAST_16 => ("api.openweathermap.org", "/data/2.5/forecast/daily")

/-- State of a `WeatherRequest` object: the underscore-suffixed instance
fields assigned by the constructor (lines 168-183). -/
structure WeatherRequest where
  appid_ : Option String
  type_ : Option WeatherRequestType
  id_ : Option String
  zip_ : Option String
  city_ : Option String
  country_ : Option String
  lat_ : Option String
  lon_ : Option String
  limit_ : Option String
  units_ : Option TemperatureUnit
  language_ : Option String
  deriving DecidableEq, Repr

/-- Configuration object accepted by the `WeatherRequest` constructor. -/
structure WeatherConfig where
  appid : Option String
  type : Option WeatherRequestType
  id : Option String
  zip : Option String
  city : Option String
  country : Option String
  lat : Option String
  lon : Option String
  limit : Option String
  units : Option TemperatureUnit
  language : Option String
  deriving DecidableEq, Repr

/-- The all-absent configuration object (`{}`, or a missing argument). -/
def WeatherConfig.empty : WeatherConfig :=
  ⟨none, none, none, none, none, none, none, none, none, none, none⟩

/-- `new WeatherRequest(config)` (lines 168-183): every field is copied
from the config; `appid_` is `config.appid || APPID` where `APPID` is the
module-global default key at construction time. -/
def WeatherRequest.construct (config : Option WeatherConfig)
    (APPID : Option String) : WeatherRequest :=
  let cfg := config.getD WeatherConfig.empty
  { appid_ := jsOr cfg.appid APPID
    type_ := cfg.type
    id_ := cfg.id
    zip_ := cfg.zip
    city_ := cfg.city
    country_ := cfg.country
    lat_ := cfg.lat
    lon_ := cfg.lon
    limit_ := cfg.limit
    units_ := cfg.units
    language_ := cfg.language }

/-- Getter arm of `WeatherRequest.appid` (lines 227-231). -/
def WeatherRequest.appidGet (r : WeatherRequest) : Option String := r.appid_

/-- Setter arm of `WeatherRequest.appid`. -/
def WeatherRequest.appidSet (r : WeatherRequest) (appid : String) : WeatherRequest :=
  { r with appid_ := some appid }

/-- Setter arm of `WeatherRequest.type` (lines 241-245). -/
def WeatherRequest.typeSet (r : WeatherRequest) (t : WeatherRequestType) : WeatherRequest :=
  { r with type_ := some t }

/-- Setter arm of `WeatherRequest.id` (lines 256-260). -/
def WeatherRequest.idSet (r : WeatherRequest) (cityId : String) : WeatherRequest :=
  { r with id_ := some cityId }

/-- Setter arm of `WeatherRequest.coords` (lines 270-275). -/
def WeatherRequest.coordsSet (r : WeatherRequest) (lat lon : String) : WeatherRequest :=
  { r with lat_ := some lat, lon_ := some lon }

/-- Getter arm of `WeatherRequest.coords`: the `{ lat, lon }` object. -/
def WeatherRequest.coordsGet (r : WeatherRequest) : Option String × Option String :=
  (r.lat_, r.lon_)

/-- Setter arm of `WeatherRequest.city` (lines 286-291): assigns
`this.city_ = name; this.country_ = country;` unconditionally — a call
with only one argument passes `country = undefined` (`none`). -/
def WeatherRequest.citySet (r : WeatherRequest) (name : String)
    (country : Option String) : WeatherRequest :=
  { r with city_ := some name, country_ := country }

/-- Getter arm of `WeatherRequest.city`: the `{ city, country }` object. -/
def WeatherRequest.cityGet (r : WeatherRequest) : Option String × Option String :=
  (r.city_, r.country_)

/-- Setter arm of `WeatherRequest.zip` (lines 301-306): assigns
`this.zip_ = code; this.country_ = country || this.country_;`. -/
def WeatherRequest.zipSet (r : WeatherRequest) (code : String)
    (country : Option String) : WeatherRequest :=
  { r with zip_ := some code, country_ := jsOr country r.country_ }

/-- Getter arm of `WeatherRequest.zip`: the `{ zip, country }` object. -/
def WeatherRequest.zipGet (r : WeatherRequest) : Option String × Option String :=
  (r.zip_, r.country_)

/-- Setter arm of `WeatherRequest.limit` (lines 317-321). -/
def WeatherRequest.limitSet (r : WeatherRequest) (count : String) : WeatherRequest :=
  { r with limit_ := some count }

/-- Setter arm of `WeatherRequest.units` (lines 332-336). -/
def WeatherRequest.unitsSet (r : WeatherRequest) (t : TemperatureUnit) : WeatherRequest :=
  { r with units_ := some t }

/-- Setter arm of `WeatherRequest.language` (lines 347-351). -/
def WeatherRequest.languageSet (r : WeatherRequest) (code : String) : WeatherRequest :=
  { r with language_ := some code }

/-- Query pairs appended by `WeatherRequest.url` (lines 190-217), in source
order: `mode` and `APPID` always; `id`, `zip`, `cnt`, `lang`, `units`,
`lat`/`lon`, `q` gated on JS truthiness of the stored field. `zip` is
always serialized with the comma and the country slot; `q` appends the
comma and country only when a country is set. -/
def weatherQuery (r : WeatherRequest) : List (String × String) :=
  [("mode", "json"), ("APPID", serParam r.appid_)]
  ++ (if jsTruthy r.id_ then [("id", serParam r.id_)] else [])
  ++ (if jsTruthy r.zip_ then
        [("zip", serParam r.zip_ ++ "," ++ serParam r.country_)] else [])
  ++ (if jsTruthy r.limit_ then [("cnt", serParam r.limit_)] else [])
  ++ (if jsTruthy r.language_ then [("lang", serParam r.language_)] else [])
  ++ (match r.units_ with
      | some u => [("units", u.nameOf)]
      | none => [])
  ++ (if jsTruthy r.lat_ && jsTruthy r.lon_ then
        [("lat", serParam r.lat_), ("lon", serParam r.lon_)] else [])
  ++ (if jsTruthy r.city_ then
        [("q", serParam r.city_
               ++ (if jsTruthy r.country_ then "," ++ serParam r.country_ else ""))]
      else [])

/-- `WeatherRequest.url`: `new url.URL(BaseUrl[this.type_])` fixes host and
path from the request type (it throws when the type is unset, hence
`none`), then the query pairs of `weatherQuery` are appended. -/
def WeatherRequest.url (r : WeatherRequest) : Option GenUrl :=
  match r.type_ with
  | none => none
  | some t =>
      some { host := (weatherBaseUrl t).1
             path := (weatherBaseUrl t).2
             query := weatherQuery r }

/-- The module-global `defaultKey` (weather lines 384-387, and the
identical functions of the uv and air modules): with an argument it
replaces the global `APPID` and returns it; without, it returns the
current one. Result: (new global state, returned value). -/
def defaultKeyCall (arg : Option String) (APPID : Option String) :
    Option String × Option String :=
  match arg with
  | some k => (some k, some k)
  | none => (APPID, APPID)

/-- Factory `weather.current()` (lines 412-414), reading the module-global
default key. -/
def weatherCurrent (APPID : Option String) : WeatherRequest :=
  (WeatherRequest.construct none APPID).typeSet .CURRENT

/-- Factory `weather.forecast5()` (lines 394-396). -/
def weatherForecast5 (APPID : Option String) : WeatherRequest :=
  (WeatherRequest.construct none APPID).typeSet .FORECAST_5

/-! ## `openweather-uv.js` -/

/-- The `UVRequestType` enum members of `openweather-uv.js`. -/
inductive UVRequestType where
  | CURRENT
  | HISTORY
  | FORECAST
  deriving DecidableEq, Repr

/-- `UVRequestType.getName` (lines 39-46): named members return their
string; the default branch executes
`throw InvalidRequestType('Unknown UVRequestType')` — but
`InvalidRequestType` is an ES2015 class (`openweather-base.js`), so
invoking it without `new` itself raises a plain `TypeError`; no
`InvalidRequestType` instance is ever thrown from this branch. -/
def UVRequestType.getName : Option UVRequestType → Except JSError String
  | some .CURRENT => .ok "current"
  | some .HISTORY => .ok "history"
  | some .FORECAST => .ok "forecast"
  | none => .error (.typeError
      "Class constructor InvalidRequestType cannot be invoked without new")

/-- The UV `BaseUrl` table (lines 62-66) as the path component under host
`api.openweathermap.org`. -/
def uvBasePath : UVRequestType → String
  | .CURRENT => "/data/2.5/uvi"
  | .HISTORY => "/data/2.5/uvi/history"
  | .FORECAST => "/data/2.5/uvi/forecast"

/-- State of a `UVRequest` (constructor lines 119-133). Note the two
distinct fields: the constructor and `url()` use `cnt_`, while the
`limit` accessor reads and writes `count_`. -/
structure UVRequest where
  appid_ : Option String
  type_ : Option UVRequestType
  lat_ : Option String
  lon_ : Option String
  cnt_ : Option String
  count_ : Option String
  start_ : Option String
  end_ : Option String
  deriving DecidableEq, Repr

/-- Configuration object accepted by the `UVRequest` constructor. -/
structure UVConfig where
  appid : Option String
  type : Option UVRequestType
  lat : Option String
  lon : Option String
  cnt : Option String
  start : Option String
  endv : Option String
  deriving DecidableEq, Repr

/-- The all-absent UV configuration object. -/
def UVConfig.empty : UVConfig := ⟨none, none, none, none, none, none, none⟩

/-- `new UVRequest(config)` (lines 119-133): copies `appid` (with default
key fallback), `type`, `lat`, `lon`, `cnt`, `start`, `end`; the `count_`
field used by the `limit` accessor is never initialized (undefined). -/
def UVRequest.construct (config : Option UVConfig)
    (APPID : Option String) : UVRequest :=
  let cfg := config.getD UVConfig.empty
  { appid_ := jsOr cfg.appid APPID
    type_ := cfg.type
    lat_ := cfg.lat
    lon_ := cfg.lon
    cnt_ := cfg.cnt
    count_ := none
    start_ := cfg.start
    end_ := cfg.endv }

/-- Getter arm of `UVRequest.appid` (lines 143-147). -/
def UVRequest.appidGet (r : UVRequest) : Option String := r.appid_

/-- Setter arm of `UVRequest.appid`. -/
def UVRequest.appidSet (r : UVRequest) (appid : String) : UVRequest :=
  { r with appid_ := some appid }

/-- Setter arm of `UVRequest.type` (lines 156-160). -/
def UVRequest.typeSet (r : UVRequest) (t : UVRequestType) : UVRequest :=
  { r with type_ := some t }

/-- Setter arm of `UVRequest.coords` (lines 170-175). -/
def UVRequest.coordsSet (r : UVRequest) (lat lon : String) : UVRequest :=
  { r with lat_ := some lat, lon_ := some lon }

/-- Getter arm of `UVRequest.coords`. -/
def UVRequest.coordsGet (r : UVRequest) : Option String × Option String :=
  (r.lat_, r.lon_)

/-- Setter arm of `UVRequest.limit` (lines 185-189): writes `count_`. -/
def UVRequest.limitSet (r : UVRequest) (count : String) : UVRequest :=
  { r with count_ := some count }

/-- Getter arm of `UVRequest.limit`: reads `count_`. -/
def UVRequest.limitGet (r : UVRequest) : Option String := r.count_

/-- Setter arm of `UVRequest.timePeriod` (lines 201-206). -/
def UVRequest.timePeriodSet (r : UVRequest) (start endv : String) : UVRequest :=
  { r with start_ := some start, end_ := some endv }

/-- Getter arm of `UVRequest.timePeriod`: the `{ start, end }` object. -/
def UVRequest.timePeriodGet (r : UVRequest) : Option String × Option String :=
  (r.start_, r.end_)

/-- Query pairs appended by `UVRequest.url` (lines 213-232): `APPID`,
`lat`, `lon` unconditionally; `cnt` (read from `cnt_`, not `count_`) only
under FORECAST; `start`/`end` only under HISTORY. -/
def uvQuery (r : UVRequest) (t : UVRequestType) : List (String × String) :=
  [("APPID", serParam r.appid_), ("lat", serParam r.lat_), ("lon", serParam r.lon_)]
  ++ (if t = .FORECAST then [("cnt", serParam r.cnt_)] else [])
  ++ (if t = .HISTORY then
        [("start", serParam r.start_), ("end", serParam r.end_)] else [])

/-- `UVRequest.url` (lines 213-232); `none` when the request type is unset
(`new url.URL(BaseUrl[undefined])` throws). -/
def UVRequest.url (r : UVRequest) : Option GenUrl :=
  match r.type_ with
  | none => none
  | some t =>
      some { host := "api.openweathermap.org"
             path := uvBasePath t
             query := uvQuery r t }

/-- Factory `uv.history()` (lines 279-281). -/
def uvHistory (APPID : Option String) : UVRequest :=
  (UVRequest.construct none APPID).typeSet .HISTORY

/-- Factory `uv.current()` (lines 270-272). -/
def uvCurrent (APPID : Option String) : UVRequest :=
  (UVRequest.construct none APPID).typeSet .CURRENT

/-! ## `openweather-air.js` (the `AirRequest` variant) -/

/-- The `AirRequestType` enum members of `openweather-air.js`. -/
inductive AirRequestType where
  | O3
  | CO
  | SO2
  | NO2
  deriving DecidableEq, Repr

/-- `AirRequestType.getName` (lines 309-318): throws
`new InvalidRequestType('Unknown AirRequestType')` on the default branch. -/
def AirRequestType.getName : Option AirRequestType → Except JSError String
  | some .O3 => .ok "ozone"
  | some .CO => .ok "carbon-monoxide"
  | some .SO2 => .ok "sulfur-dioxide"
  | some .NO2 => .ok "nitrogen-dioxide"
  | none => .error (.invalidRequestType "Unknown AirRequestType")

/-- Base string of the air module (line 329). -/
def airBase : String := "http://api.openweathermap.org/pollution/v1/"

/-- The air `BaseUrl` object lookup (lines 335-340), keyed by the property
used in `url()`, namely `this.type_` which may be unset. The source writes
the so2 entry as `BaseUrl[AirRequestType.CO2] = base + 'so2'`; since `CO2`
is not a member of the enum, that assignment lands under the property key
"undefined" — so looking up an unset type finds `base + 'so2'`, while
looking up `AirRequestType.SO2` finds nothing (JS `undefined`). -/
def airBaseUrl : Option AirRequestType → Option String
  | some .CO => some (airBase ++ "co")
  | some .O3 => some (airBase ++ "o3")
  | some .NO2 => some (airBase ++ "no2")
  | some .SO2 => none
  | none => some (airBase ++ "so2")

/-- State of an `AirRequest` (constructor lines 372-381). `datetime_` is
always assigned (`config.datetime || new Date()`); `time_` is the property
the `datetime` getter reads (line 448) — no code ever assigns it, so as a
JS property access it yields `undefined`. The stored datetime is modelled
by the ISO string `Date.prototype.toISOString` would produce for it, which
is how `url()` consumes it. -/
structure AirRequest where
  appid_ : Option String
  type_ : Option AirRequestType
  lat_ : Option String
  lon_ : Option String
  datetime_ : String
  time_ : Option String
  deriving DecidableEq, Repr

/-- Configuration object accepted by the `AirRequest` constructor. -/
structure AirConfig where
  appid : Option String
  type : Option AirRequestType
  lat : Option String
  lon : Option String
  datetime : Option String
  deriving DecidableEq, Repr

/-- The all-absent air configuration object. -/
def AirConfig.empty : AirConfig := ⟨none, none, none, none, none⟩

/-- `new AirRequest(config)` (lines 372-381); `now` is the ISO form of the
construction-time `new Date()` used when no datetime is configured. -/
def AirRequest.construct (config : Option AirConfig)
    (APPID : Option String) (now : String) : AirRequest :=
  let cfg := config.getD AirConfig.empty
  { appid_ := jsOr cfg.appid APPID
    type_ := cfg.type
    lat_ := cfg.lat
    lon_ := cfg.lon
    datetime_ := (jsOr cfg.datetime (some now)).getD now
    time_ := none }

/-- Getter arm of `AirRequest.appid` (lines 391-395). -/
def AirRequest.appidGet (r : AirRequest) : Option String := r.appid_

/-- Setter arm of `AirRequest.appid`. -/
def AirRequest.appidSet (r : AirRequest) (appid : String) : AirRequest :=
  { r with appid_ := some appid }

/-- Setter arm of `AirRequest.type` (lines 418-422). -/
def AirRequest.typeSet (r : AirRequest) (t : AirRequestType) : AirRequest :=
  { r with type_ := some t }

/-- Setter arm of `AirRequest.coords` (lines 432-437). -/
def AirRequest.coordsSet (r : AirRequest) (lat lon : String) : AirRequest :=
  { r with lat_ := some lat, lon_ := some lon }

/-- Getter arm of `AirRequest.coords`. -/
def AirRequest.coordsGet (r : AirRequest) : Option String × Option String :=
  (r.lat_, r.lon_)

/-- Setter arm of `AirRequest.datetime` (lines 447-451): assigns
`this.datetime_ = time`. -/
def AirRequest.datetimeSet (r : AirRequest) (time : String) : AirRequest :=
  { r with datetime_ := time }

/-- Getter arm of `AirRequest.datetime` (line 448): `return this.time_` —
a property distinct from the `datetime_` field the setter assigns. -/
def AirRequest.datetimeGet (r : AirRequest) : Option String := r.time_

/-- `AirRequest.url` (lines 402-407): string concatenation
`encodeURI(BaseUrl[this.type_] + input)`, where a missing table entry
contributes the text "undefined" (JS `undefined + string`). -/
def AirRequest.url (r : AirRequest) : String :=
  encodeURI (serParam (airBaseUrl r.type_)
    ++ "/" ++ serParam r.lat_ ++ "," ++ serParam r.lon_
    ++ "/" ++ r.datetime_ ++ ".json?appid=" ++ serParam r.appid_)

/-- Factory `air.sulfurDioxide()` (lines 526-528). -/
def airSulfurDioxide (APPID : Option String) (now : String) : AirRequest :=
  (AirRequest.construct none APPID now).typeSet .SO2

/-- Factory `air.ozone()` (lines 507-509). -/
def airOzone (APPID : Option String) (now : String) : AirRequest :=
  (AirRequest.construct none APPID now).typeSet .O3

/-- Characters of a list up to (excluding) the first question mark. -/
def takeUntilQuestion : List Char → List Char
  | [] => []
  | c :: rest => if c = '?' then [] else c :: takeUntilQuestion rest

/-- Everything of an air URL before the query string (`?`): its scheme,
host and path part. -/
def stripQuery (s : String) : String := String.mk (takeUntilQuestion s.data)

/-! ## `exec` (execution adapters)

The promise chain of each `exec` is collapsed into a pure trace over a
mocked transport outcome `Except String String` (error, or response body).
-/

/-- JS values flowing through the `exec` promise chains and callbacks. -/
inductive JSVal where
  | undefined
  | null
  | body (s : String)
  | errv (e : String)
  deriving DecidableEq, Repr

/-- Settled state of the promise `exec` returns. -/
inductive PromiseResult where
  | resolved (v : JSVal)
  | rejected (v : JSVal)
  deriving DecidableEq, Repr

/-- Observable trace of one `exec` call: how many `got` requests were
issued, the settled state of the returned promise, and the argument pairs
passed to the callback. -/
structure ExecTrace where
  gets : Nat
  outcome : PromiseResult
  calls : List (JSVal × JSVal)
  deriving DecidableEq, Repr

/-- `WeatherRequest.exec` (lines 360-371):
`got(url, ...).then(res => res.body).then(res => callback(res))
.catch(err => callback(null, err))`. On success the callback receives the
body as its first argument (second `undefined`); on failure it receives
`(null, err)`; either way the chain ends resolved with the callback's
return value (the trailing `catch` converts any rejection). -/
def weatherExec (transport : Except String String)
    (callback : JSVal → JSVal → JSVal) : ExecTrace :=
  match transport with
  | .ok b =>
      { gets := 1
        outcome := .resolved (callback (.body b) .undefined)
        calls := [(.body b, .undefined)] }
  | .error e =>
      { gets := 1
        outcome := .resolved (callback .null (.errv e))
        calls := [(.null, .errv e)] }

/-- The default callback of `WeatherRequest.exec` (lines 362-364):
`(val, err) => { return (val, err); }` — the comma expression evaluates to
its second operand. -/
def weatherDefaultCallback : JSVal → JSVal → JSVal := fun _ err => err

/-- `UVRequest.exec` (lines 240-247):
`got(url).then(res => res.body).then(res => callback(null, res))
.catch(err => callback(err))`. On success the callback receives
`(null, body)`; on failure `(err, undefined)`; the chain ends resolved
with the callback's return value. -/
def uvExec (transport : Except String String)
    (callback : JSVal → JSVal → JSVal) : ExecTrace :=
  match transport with
  | .ok b =>
      { gets := 1
        outcome := .resolved (callback .null (.body b))
        calls := [(.null, .body b)] }
  | .error e =>
      { gets := 1
        outcome := .resolved (callback (.errv e) .undefined)
        calls := [(.errv e, .undefined)] }

/-- The default callback of `UVRequest.exec` (line 242): `() => {}`. -/
def uvDefaultCallback : JSVal → JSVal → JSVal := fun _ _ => .undefined

/-! ## `openweather.js` (umbrella module) -/

/-- Identifiers bound in the top-level scope of `openweather.js` when its
export object is evaluated: the requires (lines 44-46), the global
`APPID` (line 48) and `defaultKey` (lines 56-64), plus the CommonJS
ambients. -/
def openweatherScope : List String :=
  ["require", "module", "exports", "uv", "air", "weather", "APPID", "defaultKey"]

/-- Head identifier of each property value of the export object literal
(lines 69-90), in evaluation order. -/
def openweatherExportIdents : List String :=
  ["defaultKey",
   "uv", "uv", "uv", "UVRequest", "UVRequestType",
   "weather", "weather", "weather", "weather", "weather",
   "air", "air", "air", "air", "air", "air"]

/-- First identifier of a list not bound in the environment. -/
def firstUnbound (env : List String) : List String → Option String
  | [] => none
  | i :: rest => if env.contains i then firstUnbound env rest else some i

/-- Evaluating the module body of `openweather.js`: the export object
literal evaluates its property values in order; the first reference to an
identifier missing from the scope aborts module evaluation with a
`ReferenceError`. -/
def evalOpenweatherModule : Except JSError Unit :=
  match firstUnbound openweatherScope openweatherExportIdents with
  | some i => .error (.referenceError i)
  | none => .ok ()

/-! ## Scenario values used by individual claims -/

/-- The UV history scenario request
`history().appid(K).coords(26.3, -98.1).limit(4).timePeriod(1000, 2000)`,
built from the embedded factory and setters (values in serialized form). -/
def uvHistoryScenario : UVRequest :=
  ((((uvHistory none).appidSet "K").coordsSet "26.3" "-98.1").limitSet
      "4").timePeriodSet "1000" "2000"

/-- A weather FORECAST_5 request with `appid('API-KEY')` and
`zip('11111')` (no country code), as in the repository's forecast5 test. -/
def weatherZipScenario : WeatherRequest :=
  (((WeatherRequest.construct none none).typeSet .FORECAST_5).appidSet
      "API-KEY").zipSet "11111" none

/-- Keys of the weather query pairs, with each conditional branch mapped
through the key projection. -/
theorem weatherQuery_keys (r : WeatherRequest) :
    (weatherQuery r).map Prod.fst =
    ["mode", "APPID"]
    ++ (if jsTruthy r.id_ then ["id"] else [])
    ++ (if jsTruthy r.zip_ then ["zip"] else [])
    ++ (if jsTruthy r.limit_ then ["cnt"] else [])
    ++ (if jsTruthy r.language_ then ["lang"] else [])
    ++ (match r.units_ with | some _ => ["units"] | none => [])
    ++ (if jsTruthy r.lat_ && jsTruthy r.lon_ then ["lat", "lon"] else [])
    ++ (if jsTruthy r.city_ then ["q"] else []) := by
  rcases h : r.units_ with _ | u <;>
    simp [weatherQuery, h,
      apply_ite (List.map (Prod.fst (α := String) (β := String)))]

/-! ## Claims -/

/-- C1: the accessor round-trip fails on the code: the `datetime` accessor
of `AirRequest` stores into `datetime_` as a setter but reads the never-
assigned property `time_` as a getter, so `req.datetime(d).datetime()` is
`undefined`, not `d` (the repository's own air test asserts it equals the
configured datetime, and the getter's doc says it reports the assigned
Date). -/
theorem c1_air_datetime_roundtrip_bug :
    ((AirRequest.construct none none "2018-09-01T00:00:00.000Z").datetimeSet
        "2020-05-05T00:00:00.000Z").datetimeGet = none ∧
    ((AirRequest.construct none none "2018-09-01T00:00:00.000Z").datetimeSet
        "2020-05-05T00:00:00.000Z").datetimeGet
      ≠ some "2020-05-05T00:00:00.000Z" := by
  exact ⟨rfl, by decide⟩

/-- C2: the execution contract fails on the code: for a transport success
with body X, the promise returned by `exec` resolves with the callback's
return value (`undefined` for the default callback), never with X, and the
weather variant passes the body as the callback's FIRST argument (the
error slot of its documented `(err, res)` signature); on transport
failure the trailing `catch` leaves the promise resolved, not rejected.
Exactly one GET is issued, as the claim states. -/
theorem c2_exec_resolution_bug :
    (weatherExec (.ok "payload") weatherDefaultCallback).outcome
        = .resolved .undefined ∧
    (weatherExec (.ok "payload") weatherDefaultCallback).outcome
        ≠ .resolved (.body "payload") ∧
    (weatherExec (.ok "payload") weatherDefaultCallback).calls
        = [(.body "payload", .undefined)] ∧
    (uvExec (.error "ECONNREFUSED") uvDefaultCallback).outcome
        = .resolved .undefined ∧
    (weatherExec (.ok "payload") weatherDefaultCallback).gets = 1 ∧
    (uvExec (.error "ECONNREFUSED") uvDefaultCallback).gets = 1 := by
  refine ⟨rfl, by decide, rfl, rfl, rfl, rfl⟩

/-- C3: `getName` on every member returns its documented lowercase name,
and the air/weather enums (and `TemperatureUnit`) raise
`InvalidRequestType` on unknown input — but `UVRequestType.getName`
invokes the `InvalidRequestType` class without `new`, so `getName(null)`
raises a plain `TypeError` instead of an `InvalidRequestType` (the uv test
asserts the latter is thrown). -/
theorem c3_uv_getname_error_kind_bug :
    UVRequestType.getName none = .error (.typeError
      "Class constructor InvalidRequestType cannot be invoked without new") ∧
    AirRequestType.getName none
        = .error (.invalidRequestType "Unknown AirRequestType") ∧
    WeatherRequestType.getName none
        = .error (.invalidRequestType "Unknown WeatherRequestType") ∧
    TemperatureUnit.getName none
        = .error (.invalidRequestType "Unknown TemperatureUnit") ∧
    UVRequestType.getName (some .CURRENT) = .ok "current" ∧
    UVRequestType.getName (some .HISTORY) = .ok "history" ∧
    UVRequestType.getName (some .FORECAST) = .ok "forecast" ∧
    AirRequestType.getName (some .SO2) = .ok "sulfur-dioxide" ∧
    WeatherRequestType.getName (some .FORECAST_5) = .ok "forecast5" ∧
    TemperatureUnit.getName (some .IMPERIAL) = .ok "imperial" := by
  exact ⟨rfl, rfl, rfl, rfl, rfl, rfl, rfl, rfl, rfl, rfl⟩

/-- C4 counterexample: on a UV CURRENT request with no parameter ever set,
the key `lat` still appears in the generated query (value "undefined");
and on a weather CURRENT request, a set `limit` is emitted as `cnt` even
though the limit is documented as unused by the CURRENT endpoint. Both
contradict the claim as stated. -/
theorem c4_counterexample :
    ("lat", "undefined") ∈ urlQuery (uvCurrent none).url ∧
    ("cnt", "4") ∈ urlQuery (((weatherCurrent none).appidSet "K").limitSet
        "4").url := by
  decide

/-- C4 (amended): in the weather family a parameter never set does not
appear as a query key (presence is truthiness-gated per field), while the
UV family emits APPID/lat/lon unconditionally and gates its type-scoped
parameters on the active type alone — in particular a UV CURRENT query
has exactly the keys APPID, lat, lon, so `timePeriod`/`cnt` never appear
under CURRENT whether set or not. -/
theorem c4_amended (r : WeatherRequest) (u : UVRequest) :
    (r.id_ = none → "id" ∉ (weatherQuery r).map Prod.fst) ∧
    (r.zip_ = none → "zip" ∉ (weatherQuery r).map Prod.fst) ∧
    (r.limit_ = none → "cnt" ∉ (weatherQuery r).map Prod.fst) ∧
    (r.language_ = none → "lang" ∉ (weatherQuery r).map Prod.fst) ∧
    (r.units_ = none → "units" ∉ (weatherQuery r).map Prod.fst) ∧
    (r.lat_ = none → "lat" ∉ (weatherQuery r).map Prod.fst) ∧
    (r.city_ = none → "q" ∉ (weatherQuery r).map Prod.fst) ∧
    (uvQuery u .CURRENT).map Prod.fst = ["APPID", "lat", "lon"] := by
  refine ⟨?_, ?_, ?_, ?_, ?_, ?_, ?_, by simp [uvQuery]⟩ <;>
    intro h <;> rw [weatherQuery_keys, h] <;>
    rcases hu : r.units_ with _ | u <;> simp [jsTruthy, hu]

/-- C4 amended witness: the amended statement evaluated on the empty
weather request and an empty UV request. -/
theorem c4_amended_witness :
    "id" ∉ (weatherQuery (WeatherRequest.construct none none)).map Prod.fst ∧
    (uvQuery (UVRequest.construct none none) .CURRENT).map Prod.fst
        = ["APPID", "lat", "lon"] :=
  ⟨(c4_amended (WeatherRequest.construct none none)
        (UVRequest.construct none none)).1 rfl,
   (c4_amended (WeatherRequest.construct none none)
        (UVRequest.construct none none)).2.2.2.2.2.2.2⟩

set_option maxRecDepth 8000 in
/-- C5 counterexample: two air O3 requests that differ only in the
optional coords produce URLs with different host/path parts (the air path
embeds the coordinates and datetime), and the air SO2 URL does not match
the path table at all: its base resolves to the text "undefined" because
the `BaseUrl` table wrote the so2 path under the nonexistent member
`AirRequestType.CO2`. -/
theorem c5_counterexample :
    stripQuery (((airOzone none "2018-09-01T00:00:00.000Z").appidSet
        "K").coordsSet "1" "2").url
      ≠ stripQuery (((airOzone none "2018-09-01T00:00:00.000Z").appidSet
        "K").coordsSet "3" "4").url ∧
    (((airSulfurDioxide none "2018-09-01T00:00:00.000Z").appidSet
        "K").coordsSet "1" "2").url
      = "undefined/1,2/2018-09-01T00:00:00.000Z.json?appid=K" := by
  decide

/-- C5 (amended): for the weather and UV families, host and path of the
generated URL are a function of the request type alone (matching the
BaseUrl tables) and never depend on optional parameters; for the air
family the path additionally embeds lat, lon and datetime, and the SO2
entry is mis-wired — `BaseUrl[AirRequestType.CO2]` — so an SO2 URL begins
with the text "undefined" instead of the so2 path, while O3 (and CO, NO2)
follow the `/pollution/v1/{pollutant}/{lat},{lon}/{datetime}.json`
template. -/
theorem c5_amended (r : WeatherRequest) (u : UVRequest) (t : WeatherRequestType)
    (s : UVRequestType) (lat lon dt k : String) :
    urlHostPath (WeatherRequest.url { r with type_ := some t })
        = some (weatherBaseUrl t) ∧
    urlHostPath (UVRequest.url { u with type_ := some s })
        = some ("api.openweathermap.org", uvBasePath s) ∧
    (AirRequest.mk (some k) (some .SO2) (some lat) (some lon) dt none).url
        = encodeURI ("undefined" ++ "/" ++ lat ++ "," ++ lon ++ "/" ++ dt
            ++ ".json?appid=" ++ k) ∧
    (AirRequest.mk (some k) (some .O3) (some lat) (some lon) dt none).url
        = encodeURI ((airBase ++ "o3") ++ "/" ++ lat ++ "," ++ lon ++ "/" ++ dt
            ++ ".json?appid=" ++ k) := by
  exact ⟨rfl, rfl, rfl, rfl⟩

/-- C6: on the claim's exact builder chain the generated URL has the
history path but its query is {APPID, lat, lon, start, end} with NO
limit (or cnt) pair: the `limit` accessor stores `count_` while `url()`
reads `cnt_`, and the history branch appends no count parameter at all —
the repository's own uv url test expects `limit: 4` in this query. -/
theorem c6_uv_history_scenario_bug :
    uvHistoryScenario.url
      = some { host := "api.openweathermap.org"
               path := "/data/2.5/uvi/history"
               query := [("APPID", "K"), ("lat", "26.3"), ("lon", "-98.1"),
                         ("start", "1000"), ("end", "2000")] } ∧
    ("limit", "4") ∉ urlQuery uvHistoryScenario.url ∧
    ("cnt", "4") ∉ urlQuery uvHistoryScenario.url := by
  decide

/-- C7: composite location serialization fails for zip: with a zip code
set and no country code, the weather url emits `zip=11111,undefined` (the
template string always interpolates the country slot), never the bare
value — while the `q` (city) parameter is serialized correctly. The
repository's forecast5 exec test mocks the query with the bare
`zip=11111`. -/
theorem c7_zip_country_bug :
    ("zip", "11111,undefined") ∈ urlQuery weatherZipScenario.url ∧
    ("zip", "11111") ∉ urlQuery weatherZipScenario.url ∧
    ("q", "Austin") ∈ urlQuery ((weatherCurrent none).citySet "Austin"
        none).url := by
  decide

/-- C8: a request constructed with no explicit key (for each of the three
families) carries the default key registered at construction time, the
`defaultKey` call replaces the registry value, and the already-constructed
request still reports the old key afterwards (construction copies the
global into the instance field, so later registry updates are not
retroactive). -/
theorem c8_default_key_fallback (d : Option String) (k now : String)
    (h : d ≠ some k) :
    (WeatherRequest.construct none d).appidGet = d ∧
    (UVRequest.construct none d).appidGet = d ∧
    (AirRequest.construct none d now).appidGet = d ∧
    (defaultKeyCall (some k) d).1 = some k ∧
    (WeatherRequest.construct none d).appidGet ≠ (defaultKeyCall (some k) d).1 ∧
    (defaultKeyCall none d).2 = d := by
  exact ⟨rfl, rfl, rfl, rfl, h, rfl⟩

/-- C8 witness: the fallback and non-retroactivity at concrete keys. -/
theorem c8_default_key_fallback_witness :
    (WeatherRequest.construct none (some "111")).appidGet = some "111" ∧
    (WeatherRequest.construct none (some "111")).appidGet
      ≠ (defaultKeyCall (some "222") (some "111")).1 :=
  ⟨(c8_default_key_fallback (some "111") "222" "T0" (by decide)).1,
   (c8_default_key_fallback (some "111") "222" "T0" (by decide)).2.2.2.2.1⟩

/-- C9 counterexample: after `city('Antwerp', 'be')`, calling
`city('Dallas')` with only one argument clears the stored country code to
`undefined` — the claim says it stays 'be'. -/
theorem c9_city_clears_country :
    (((WeatherRequest.construct none none).citySet "Antwerp"
        (some "be")).citySet "Dallas" none).cityGet = (some "Dallas", none) ∧
    (((WeatherRequest.construct none none).citySet "Antwerp"
        (some "be")).citySet "Dallas" none).cityGet
      ≠ (some "Dallas", some "be") := by
  decide

/-- C9 (amended): with a previously set country code, `zip(code)` called
with only the first argument preserves it (`country || this.country_`),
while `city(name)` called with only the first argument overwrites it with
`undefined`. -/
theorem c9_amended (r : WeatherRequest) (c name code : String)
    (h : r.country_ = some c) :
    (r.zipSet code none).country_ = some c ∧
    (r.citySet name none).country_ = none := by
  constructor
  · simp [WeatherRequest.zipSet, jsOr, jsTruthy, h]
  · simp [WeatherRequest.citySet]

/-- C9 amended witness: the amended statement at a concrete request with
country 'be'. -/
theorem c9_amended_witness :
    (((WeatherRequest.construct none none).citySet "A" (some "be")).zipSet
        "11111" none).country_ = some "be" :=
  (c9_amended ((WeatherRequest.construct none none).citySet "A" (some "be"))
      "be" "n" "11111" rfl).1

/-- C10: evaluating the umbrella `openweather.js` module fails with a
`ReferenceError` on the bare identifier `UVRequest` (the export object
references `UVRequest`/`UVRequestType` instead of `uv.UVRequest`/
`uv.UVRequestType`, and neither name is bound in the module scope), so
none of its exports are reachable. -/
theorem c10_umbrella_module_reference_error :
    evalOpenweatherModule = .error (.referenceError "UVRequest") ∧
    "UVRequest" ∉ openweatherScope ∧
    "UVRequestType" ∉ openweatherScope := by
  exact ⟨rfl, by decide, by decide⟩
